import Mathlib

/- Verification of the timeline, compositing and mixing logic of
src/v3.py (class VideoGenerator).  Durations and timestamps are
modelled as rationals, pixel dimensions as integers; the external media
library is modelled at the metadata level (clip size, duration, fps,
start offset, attached audio), while all arithmetic performed by the
repository itself (cumulative offsets, scale ratios, centering offsets,
loop counts, numpy slice bounds) is embedded exactly.
-/

namespace XhsVideoTool

/-- Names bound at module level by the import statements of src/v3.py
(lines 1-12).  Note that concatenate_videoclips is imported from
moviepy.editor but concatenate_audioclips is not. -/
def module_namespace : List String :=
  ["VideoFileClip", "ImageClip", "AudioFileClip",
   "concatenate_videoclips", "CompositeAudioClip", "CompositeVideoClip",
   "gTTS", "os", "List", "Dict", "Tuple", "Path", "librosa", "sf", "np",
   "datetime", "Image"]

/-- One entry of VideoGenerator.setup_segments (src/v3.py:44-54): a caption
with its identifier name, caption text, nominal start offset and nominal
target duration (the last two are informational only). -/
structure Segment where
  name : String
  text : String
  start : ℚ
  target_duration : ℚ
deriving DecidableEq, Repr

/-- The fixed seven-caption list built by setup_segments (src/v3.py:46-54). -/
def segments : List Segment :=
  [⟨"intro", "王一博周边定制排行", 0, 3⟩,
   ⟨"bronze", "青铜浴巾毛巾", 3, 3⟩,
   ⟨"silver", "白银马克杯", 6, 3⟩,
   ⟨"gold", "黄金毛巾", 9, 3⟩,
   ⟨"platinum", "铂金带帽卫衣", 12, 3⟩,
   ⟨"diamond", "钻石陶瓷杯具", 15, 3⟩,
   ⟨"king", "王者门帘", 18, 3⟩]

/-- Observable pipeline events, recording the order in which create_video
performs its externally visible stages. -/
inductive Event where
  | ttsCall (name : String)
  | videoFileSelected (path : String)
  | introProcessed
  | imageProcessed (index : ℕ) (path : String)
  | exported (path : String)
deriving DecidableEq, Repr

/-- Shallow embedding of VideoGenerator.generate_audio_segments
(src/v3.py:124-160).  The external synthesis step (gTTS followed by the
AudioFileClip load) is a parameter tts mapping a caption text to the
actual duration of the synthesized narration clip, or to the raised error.
The first component records one Event.ttsCall per synthesis attempt, in
order; the second is either the ordered list of
(clip name, start offset, actual duration) triples, or the first raised
error paired with the failing segment name as logged at src/v3.py:157
just before the re-raise. -/
def generate_audio_segments_traced (tts : String → Except String ℚ) :
    ℚ → List Segment → List Event × Except (String × String) (List (String × ℚ × ℚ))
  | _, [] => ([], Except.ok [])
  | current_start, seg :: rest =>
    match tts seg.text with
    | Except.error e => ([Event.ttsCall seg.name], Except.error (seg.name, e))
    | Except.ok actual_duration =>
      let r := generate_audio_segments_traced tts (current_start + actual_duration) rest
      (Event.ttsCall seg.name :: r.1,
       r.2.map fun L => (seg.name, current_start, actual_duration) :: L)

/-- The value returned (or error raised) by generate_audio_segments,
starting from current_start = 0 (src/v3.py:128). -/
def generate_audio_segments (tts : String → Except String ℚ) (segs : List Segment) :
    Except (String × String) (List (String × ℚ × ℚ)) :=
  (generate_audio_segments_traced tts 0 segs).2

/-- The synthesis attempts performed by generate_audio_segments, in order. -/
def tts_attempts (tts : String → Except String ℚ) (segs : List Segment) : List Event :=
  (generate_audio_segments_traced tts 0 segs).1

/-- Duration of a CompositeAudioClip built from the timeline entries: the
maximum clip end time (start + duration) over all entries, as used for
voice_audio.duration at src/v3.py:302-303. -/
def totalTimelineDuration (L : List (String × ℚ × ℚ)) : ℚ :=
  L.foldr (fun e m => max (e.2.1 + e.2.2) m) 0

/-- Closed form of the timeline produced by generate_audio_segments when
every synthesis succeeds: entry starts accumulate the actual durations. -/
def timelineFrom (d : String → ℚ) : ℚ → List Segment → List (String × ℚ × ℚ)
  | _, [] => []
  | c, seg :: rest => (seg.name, c, d seg.text) :: timelineFrom d (c + d seg.text) rest

theorem generate_audio_segments_traced_ok (tts : String → Except String ℚ)
    (d : String → ℚ) (c : ℚ) (segs : List Segment)
    (htts : ∀ s ∈ segs, tts s.text = Except.ok (d s.text)) :
    generate_audio_segments_traced tts c segs =
      (segs.map fun s => Event.ttsCall s.name, Except.ok (timelineFrom d c segs)) := by
  induction segs generalizing c with
  | nil => rfl
  | cons seg rest ih =>
    have hseg := htts seg (List.mem_cons_self _ _)
    have hrest : ∀ s ∈ rest, tts s.text = Except.ok (d s.text) :=
      fun s hs => htts s (List.mem_cons_of_mem _ hs)
    simp [generate_audio_segments_traced, hseg, ih _ hrest, timelineFrom, Except.map]

theorem timelineFrom_length (d : String → ℚ) (c : ℚ) (segs : List Segment) :
    (timelineFrom d c segs).length = segs.length := by
  induction segs generalizing c with
  | nil => rfl
  | cons seg rest ih => simp [timelineFrom, ih]

theorem timelineFrom_get? (d : String → ℚ) (c : ℚ) (segs : List Segment)
    (i : ℕ) (s : Segment) (hs : segs.get? i = some s) :
    (timelineFrom d c segs).get? i =
      some (s.name, c + ((segs.take i).map fun t => d t.text).sum, d s.text) := by
  induction segs generalizing c i with
  | nil => simp at hs
  | cons seg rest ih =>
    cases i with
    | zero =>
      simp at hs
      subst hs
      simp [timelineFrom]
    | succ j =>
      simp only [List.get?_cons_succ] at hs
      simpa [timelineFrom, add_assoc] using ih (c + d seg.text) j hs

theorem totalTimelineDuration_timelineFrom (d : String → ℚ) (c : ℚ)
    (segs : List Segment) (hd : ∀ s ∈ segs, 0 ≤ d s.text) (hc : 0 ≤ c) :
    totalTimelineDuration (timelineFrom d c segs) =
      if segs.isEmpty then 0 else c + (segs.map fun s => d s.text).sum := by
  induction segs generalizing c with
  | nil => rfl
  | cons seg rest ih =>
    have hseg := hd seg (List.mem_cons_self _ _)
    have hrest : ∀ s ∈ rest, 0 ≤ d s.text :=
      fun s hs => hd s (List.mem_cons_of_mem _ hs)
    have hc2 : 0 ≤ c + d seg.text := by linarith
    have := ih (c + d seg.text) hrest hc2
    cases rest with
    | nil =>
      simp [timelineFrom, totalTimelineDuration] at this ⊢
      linarith [max_eq_left (by linarith : (0:ℚ) ≤ c + d seg.text)]
    | cons r2 rs =>
      simp only [List.isEmpty_cons, if_neg] at this ⊢
      have hsum : (0:ℚ) ≤ ((r2 :: rs).map fun s => d s.text).sum := by
        apply List.sum_nonneg
        intro x hx
        rcases List.mem_map.mp hx with ⟨t, ht, rfl⟩
        exact hrest t ht
      have hstep : totalTimelineDuration (timelineFrom d c (seg :: r2 :: rs)) =
          max (c + d seg.text) (totalTimelineDuration (timelineFrom d (c + d seg.text) (r2 :: rs))) := by
        simp [timelineFrom, totalTimelineDuration]
      rw [hstep, this]
      simp only [Bool.false_eq_true, if_false]
      rw [max_eq_right (by linarith)]
      ring_nf
      simp [add_assoc]

theorem generate_audio_segments_start_invariant (tts : String → Except String ℚ)
    (c : ℚ) (segs : List Segment) (f : Segment → ℚ) :
    generate_audio_segments_traced tts c (segs.map fun s => { s with start := f s }) =
      generate_audio_segments_traced tts c segs := by
  induction segs generalizing c with
  | nil => rfl
  | cons seg rest ih =>
    simp only [List.map_cons, generate_audio_segments_traced]
    cases tts seg.text with
    | error e => rfl
    | ok dur => simp [ih]

/-- C1: for every ordered caption list whose synthesized narration clips
have actual durations given by d, generate_audio_segments returns one
triple per caption, in caption order, where the start offset of entry i is
the exact sum of the actual durations of entries 0..i-1 (0 for i = 0), the
result does not depend on the nominal start fields of the segments, and
the total timeline duration (maximum end time over all entries) equals the
sum of all actual durations. -/
theorem generate_audio_segments_cumulative_offsets
    (tts : String → Except String ℚ) (d : String → ℚ) (segs : List Segment)
    (htts : ∀ s ∈ segs, tts s.text = Except.ok (d s.text))
    (hd : ∀ s ∈ segs, 0 ≤ d s.text) :
    ∃ L, generate_audio_segments tts segs = Except.ok L ∧
      L.length = segs.length ∧
      (∀ i s, segs.get? i = some s →
        L.get? i = some (s.name, ((segs.take i).map fun t => d t.text).sum, d s.text)) ∧
      totalTimelineDuration L = (segs.map fun s => d s.text).sum ∧
      ∀ f : Segment → ℚ,
        generate_audio_segments tts (segs.map fun s => { s with start := f s }) =
          generate_audio_segments tts segs := by
  refine ⟨timelineFrom d 0 segs, ?_, timelineFrom_length d 0 segs, ?_, ?_, ?_⟩
  · unfold generate_audio_segments
    rw [generate_audio_segments_traced_ok tts d 0 segs htts]
  · intro i s hs
    simpa using timelineFrom_get? d 0 segs i s hs
  · rw [totalTimelineDuration_timelineFrom d 0 segs hd le_rfl]
    cases segs with
    | nil => simp
    | cons a l => simp
  · intro f
    unfold generate_audio_segments
    rw [generate_audio_segments_start_invariant]

/-- Witness for C1 at a concrete synthesizer: every caption synthesizes to
a 3-second clip over the fixed seven-segment caption list. -/
theorem generate_audio_segments_cumulative_offsets_witness :
    ∃ L, generate_audio_segments (fun _ => Except.ok (3 : ℚ)) segments = Except.ok L ∧
      L.length = segments.length ∧
      (∀ i s, segments.get? i = some s →
        L.get? i = some (s.name, ((segments.take i).map fun _ => (3:ℚ)).sum, (3:ℚ))) ∧
      totalTimelineDuration L = (segments.map fun _ => (3:ℚ)).sum ∧
      ∀ f : Segment → ℚ,
        generate_audio_segments (fun _ => Except.ok (3 : ℚ))
            (segments.map fun s => { s with start := f s }) =
          generate_audio_segments (fun _ => Except.ok (3 : ℚ)) segments :=
  generate_audio_segments_cumulative_offsets (fun _ => Except.ok (3 : ℚ))
    (fun _ => 3) segments (fun _ _ => rfl) (fun _ _ => by norm_num)

theorem generate_audio_segments_traced_first_error
    (tts : String → Except String ℚ) (pre post : List Segment) (s : Segment)
    (e : String) (c : ℚ)
    (hpre : ∀ t ∈ pre, ∃ q, tts t.text = Except.ok q)
    (hs : tts s.text = Except.error e) :
    generate_audio_segments_traced tts c (pre ++ s :: post) =
      ((pre ++ [s]).map fun t => Event.ttsCall t.name, Except.error (s.name, e)) := by
  induction pre generalizing c with
  | nil => simp [generate_audio_segments_traced, hs]
  | cons a l ih =>
    obtain ⟨q, hq⟩ := hpre a (List.mem_cons_self _ _)
    have hl : ∀ t ∈ l, ∃ q, tts t.text = Except.ok q :=
      fun t ht => hpre t (List.mem_cons_of_mem _ ht)
    simp [generate_audio_segments_traced, hq, ih (c + q) hl, Except.map]

/-- C7: if synthesis fails for a caption, generate_audio_segments performs
exactly one synthesis attempt for each caption up to and including the
failing one, attempts nothing after it (no retry anywhere), returns no
prefix of the timeline, and aborts by re-raising the error paired with the
failing segment name that was surfaced in the log. -/
theorem generate_audio_segments_fail_fast
    (tts : String → Except String ℚ) (pre post : List Segment) (s : Segment) (e : String)
    (hpre : ∀ t ∈ pre, ∃ q, tts t.text = Except.ok q)
    (hs : tts s.text = Except.error e) :
    generate_audio_segments tts (pre ++ s :: post) = Except.error (s.name, e) ∧
    tts_attempts tts (pre ++ s :: post) =
      (pre ++ [s]).map fun t => Event.ttsCall t.name := by
  unfold generate_audio_segments tts_attempts
  rw [generate_audio_segments_traced_first_error tts pre post s e 0 hpre hs]
  exact ⟨rfl, rfl⟩

/-- Synthesizer that fails on the third caption text and succeeds on the
others, used as the concrete input of the fail-fast witness. -/
def tts_fail_silver : String → Except String ℚ :=
  fun t => if t = "白银马克杯" then Except.error "gTTS connection error" else Except.ok 2

/-- Witness for C7: with a synthesizer failing on the silver caption, the
whole build aborts with the segment name and underlying error, after
exactly one attempt each for intro, bronze and silver and none for the
later captions. -/
theorem generate_audio_segments_fail_fast_witness :
    generate_audio_segments tts_fail_silver segments =
      Except.error ("silver", "gTTS connection error") ∧
    tts_attempts tts_fail_silver segments =
      [Event.ttsCall "intro", Event.ttsCall "bronze", Event.ttsCall "silver"] := by
  have h := generate_audio_segments_fail_fast tts_fail_silver
    [⟨"intro", "王一博周边定制排行", 0, 3⟩, ⟨"bronze", "青铜浴巾毛巾", 3, 3⟩]
    [⟨"gold", "黄金毛巾", 9, 3⟩, ⟨"platinum", "铂金带帽卫衣", 12, 3⟩,
     ⟨"diamond", "钻石陶瓷杯具", 15, 3⟩, ⟨"king", "王者门帘", 18, 3⟩]
    ⟨"silver", "白银马克杯", 6, 3⟩ "gTTS connection error"
    (by intro t ht; refine ⟨2, ?_⟩; fin_cases ht <;> rfl)
    rfl
  exact ⟨h.1, h.2⟩

/-- The fixed target canvas self.video_size = (1080, 1440) (src/v3.py:22). -/
def video_size : ℤ × ℤ := (1080, 1440)

/-- Metadata of a media clip as used by this embedding: pixel size,
duration, fps, start offset on the composite timeline, and the attached
audio track abstracted to its duration (none when the clip has no audio). -/
structure MClip where
  size : ℤ × ℤ
  duration : ℚ
  fps : ℚ
  start : ℚ
  audio : Option ℚ
deriving DecidableEq, Repr

/-- The uniform scale factor max(width_ratio, height_ratio) computed at
src/v3.py:85-88. -/
def scale_ratio (targetW targetH w h : ℤ) : ℚ :=
  max ((targetW : ℚ) / (w : ℚ)) ((targetH : ℚ) / (h : ℚ))

/-- Pixel size of clip.resize(scale_ratio) (src/v3.py:91): the media
library multiplies both source dimensions by the factor and truncates the
results to integers. -/
def scaled_size (targetW targetH w h : ℤ) : ℤ × ℤ :=
  (⌊scale_ratio targetW targetH w h * (w : ℚ)⌋,
   ⌊scale_ratio targetW targetH w h * (h : ℚ)⌋)

/-- Normalization of a (possibly negative) numpy basic-slice index against
an axis of the given length: a negative index counts from the end of the
axis and the result is clamped into [0, len]. -/
def npIndex (len i : ℤ) : ℤ := max 0 (min len (if i < 0 then i + len else i))

/-- Number of positions selected by the numpy basic slice a:b on an axis of
the given length. -/
def sliceLen (len a b : ℤ) : ℤ := max 0 (npIndex len b - npIndex len a)

/-- Shallow embedding of the make_frame closure of resize_and_pad_video
(src/v3.py:97-109): the zero canvas has shape (targetH, targetW, 3), the
centering offsets are computed with Python floor division, and the numpy
block assignment
full_frame[y_offset : y_offset + sh, x_offset : x_offset + sw] = scaled_frame
succeeds exactly when the selected destination slice has the shape of the
scaled frame, in which case the produced frame has the target dimensions;
otherwise numpy raises a broadcast ValueError. -/
def make_frame (targetW targetH scaledW scaledH : ℤ) : Except String (ℤ × ℤ) :=
  let y_offset := (targetH - scaledH).fdiv 2
  let x_offset := (targetW - scaledW).fdiv 2
  if sliceLen targetH y_offset (y_offset + scaledH) = scaledH ∧
      sliceLen targetW x_offset (x_offset + scaledW) = scaledW then
    Except.ok (targetW, targetH)
  else
    Except.error "ValueError: could not broadcast input array"

/-- Shallow embedding of resize_and_pad_video (src/v3.py:77-121): compute
the scale factor and resize; when the scaled size differs from the target
canvas the code enters the padding branch, which raises at src/v3.py:111:
it passes a None filename and the make_frame closure to VideoFileClip,
whose constructor accepts neither, so Python raises TypeError there and
the metadata assignments set_duration, set_fps and set_audio
(src/v3.py:112-116) never run; no clip is returned on that path.  When
the scaled size already equals the canvas, the scaled clip is returned
unchanged. -/
def resize_and_pad_video (targetW targetH : ℤ) (clip : MClip) : Except String MClip :=
  let scaled : MClip :=
    { clip with size := scaled_size targetW targetH clip.size.1 clip.size.2 }
  if scaled.size ≠ (targetW, targetH) then
    Except.error "TypeError: unexpected keyword argument make_frame"
  else
    Except.ok scaled

/-- Frame that resize_and_pad_video prepares for a source of pixel size
(w, h): when the scaled size differs from the canvas this is the result
of the make_frame closure built at src/v3.py:97-109 (the frame the padded
clip is meant to render), otherwise the scaled frame itself. -/
def rendered_frame (targetW targetH w h : ℤ) : Except String (ℤ × ℤ) :=
  if scaled_size targetW targetH w h ≠ (targetW, targetH) then
    make_frame targetW targetH (scaled_size targetW targetH w h).1
      (scaled_size targetW targetH w h).2
  else
    Except.ok (scaled_size targetW targetH w h)

theorem target_le_scaled_fst (targetW targetH w h : ℤ) (hw : 0 < w) :
    targetW ≤ (scaled_size targetW targetH w h).1 := by
  have hwQ : (0:ℚ) < (w:ℚ) := by exact_mod_cast hw
  have h1 : ((targetW : ℚ) / w) * w ≤ scale_ratio targetW targetH w h * w :=
    mul_le_mul_of_nonneg_right (le_max_left _ _) hwQ.le
  rw [div_mul_cancel₀ _ (ne_of_gt hwQ)] at h1
  exact Int.le_floor.mpr h1

theorem target_le_scaled_snd (targetW targetH w h : ℤ) (hh : 0 < h) :
    targetH ≤ (scaled_size targetW targetH w h).2 := by
  have hhQ : (0:ℚ) < (h:ℚ) := by exact_mod_cast hh
  have h1 : ((targetH : ℚ) / h) * h ≤ scale_ratio targetW targetH w h * h :=
    mul_le_mul_of_nonneg_right (le_max_right _ _) hhQ.le
  rw [div_mul_cancel₀ _ (ne_of_gt hhQ)] at h1
  exact Int.le_floor.mpr h1

theorem sliceLen_le (len a b : ℤ) (hlen : 0 ≤ len) : sliceLen len a b ≤ len := by
  unfold sliceLen npIndex
  split <;> split <;> omega

theorem make_frame_error (targetW targetH sw sh : ℤ) (hW : 0 ≤ targetW)
    (hH : 0 ≤ targetH) (hsw : targetW ≤ sw) (hsh : targetH ≤ sh)
    (hne : sw ≠ targetW ∨ sh ≠ targetH) :
    make_frame targetW targetH sw sh =
      Except.error "ValueError: could not broadcast input array" := by
  unfold make_frame
  rw [if_neg]
  rintro ⟨h1, h2⟩
  rcases hne with hx | hy
  · have hle := sliceLen_le targetW ((targetW - sw).fdiv 2)
      ((targetW - sw).fdiv 2 + sw) hW
    omega
  · have hle := sliceLen_le targetH ((targetH - sh).fdiv 2)
      ((targetH - sh).fdiv 2 + sh) hH
    omega

theorem pad_frame_error (targetW targetH w h : ℤ) (hW : 0 < targetW)
    (hH : 0 < targetH) (hw : 0 < w) (hh : 0 < h)
    (hne : scaled_size targetW targetH w h ≠ (targetW, targetH)) :
    rendered_frame targetW targetH w h =
      Except.error "ValueError: could not broadcast input array" := by
  unfold rendered_frame
  rw [if_pos hne]
  apply make_frame_error _ _ _ _ hW.le hH.le
    (target_le_scaled_fst targetW targetH w h hw)
    (target_le_scaled_snd targetW targetH w h hh)
  by_contra hcon
  push_neg at hcon
  exact hne (Prod.ext hcon.1 hcon.2)

/-- C3: the claim fails on the code.  The code does scale the source
uniformly by exactly max(W/w, H/h) (cover fit, see scale_ratio), but
whenever the scaled size differs from the target canvas the padding branch
cannot produce a single output frame: cover fit makes both scaled
dimensions at least as large as the canvas, the centering offsets become
negative, and the numpy block assignment of make_frame raises a broadcast
ValueError instead of producing a centered frame of dimensions (W, H). -/
theorem resize_and_pad_padding_branch_crashes (targetW targetH w h : ℤ)
    (hW : 0 < targetW) (hH : 0 < targetH) (hw : 0 < w) (hh : 0 < h)
    (hne : scaled_size targetW targetH w h ≠ (targetW, targetH)) :
    rendered_frame targetW targetH w h =
      Except.error "ValueError: could not broadcast input array" :=
  pad_frame_error targetW targetH w h hW hH hw hh hne

/-- Witness for C3 at the failing input: a 1920 by 1080 source scaled to
the 1080 by 1440 canvas gets factor 4/3, scaled size 2560 by 1440, and
frame rendering raises instead of producing a padded 1080 by 1440 frame. -/
theorem resize_and_pad_padding_branch_crashes_witness :
    scale_ratio 1080 1440 1920 1080 = 4 / 3 ∧
    scaled_size 1080 1440 1920 1080 = (2560, 1440) ∧
    rendered_frame 1080 1440 1920 1080 =
      Except.error "ValueError: could not broadcast input array" := by
  refine ⟨?_, ?_, ?_⟩
  · norm_num [scale_ratio, max_def]
  · norm_num [scaled_size, scale_ratio, max_def]
  · exact resize_and_pad_padding_branch_crashes 1080 1440 1920 1080
      (by decide) (by decide) (by decide) (by decide)
      (by norm_num [scaled_size, scale_ratio, max_def])

/-- C9: the claim matches the evident intent of src/v3.py:112-116
(propagate the source clip duration, fps and audio into the padded clip)
but the code is wrong: whenever resize_and_pad_video takes its padding
branch, the clip construction at src/v3.py:111 raises (VideoFileClip
accepts neither a make_frame keyword nor a None filename), so the
metadata assignments never run and the branch returns no clip at all,
instead of a clip with preserved duration, fps and audio. -/
theorem resize_and_pad_padding_branch_no_clip (targetW targetH : ℤ) (clip : MClip)
    (hpad : scaled_size targetW targetH clip.size.1 clip.size.2 ≠ (targetW, targetH)) :
    resize_and_pad_video targetW targetH clip =
      Except.error "TypeError: unexpected keyword argument make_frame" := by
  have hcond : ({ clip with
      size := scaled_size targetW targetH clip.size.1 clip.size.2 } : MClip).size ≠
      (targetW, targetH) := hpad
  simp only [resize_and_pad_video, if_pos hcond]

/-- Witness for C9 at a concrete source clip with audio: 1920 by 1080,
duration 10, fps 30, audio of duration 10; the padding branch is taken and
raises instead of returning a metadata-preserving clip. -/
theorem resize_and_pad_padding_branch_no_clip_witness :
    scaled_size 1080 1440 1920 1080 ≠ (1080, 1440) ∧
    resize_and_pad_video 1080 1440 ⟨(1920, 1080), 10, 30, 0, some 10⟩ =
      Except.error "TypeError: unexpected keyword argument make_frame" := by
  have h : scaled_size 1080 1440 1920 1080 ≠ (1080, 1440) := by
    norm_num [scaled_size, scale_ratio, max_def]
  exact ⟨h, resize_and_pad_padding_branch_no_clip 1080 1440
    ⟨(1920, 1080), 10, 30, 0, some 10⟩ h⟩

/-- Shallow embedding of VideoGenerator.process_bgm (src/v3.py:219-250),
returning the (duration, volume factor) pair of the processed background
clip, or the raised error.  When the original duration is shorter than the
required total duration, src/v3.py:237 evaluates the name
concatenate_audioclips, which is not among the names bound by the module
imports (see module_namespace; only concatenate_videoclips is imported),
so Python raises NameError there and the except block re-raises it after
logging.  Otherwise the clip is cut by subclip(0, total_duration) and
attenuated by volumex(0.3). -/
def process_bgm (original_duration total_duration : ℚ) : Except String (ℚ × ℚ) :=
  (if original_duration < total_duration then
      if "concatenate_audioclips" ∈ module_namespace then
        Except.ok (((⌈total_duration / original_duration⌉ : ℤ) : ℚ) * original_duration)
      else
        Except.error "NameError: name concatenate_audioclips is not defined"
    else
      Except.ok original_duration).map
    fun looped_duration => (min total_duration looped_duration, 3 / 10)

/-- C2: the claim is right and the code is wrong.  For every background
asset strictly shorter than the required duration, process_bgm reaches the
loop branch, whose call to concatenate_audioclips raises NameError because
that name was never imported (src/v3.py:1-3 import only
concatenate_videoclips), so process_bgm aborts with the re-raised
NameError instead of returning a looped and trimmed background track of
exactly the required duration. -/
theorem process_bgm_loop_branch_raises (original_duration total_duration : ℚ)
    (h : original_duration < total_duration) :
    process_bgm original_duration total_duration =
      Except.error "NameError: name concatenate_audioclips is not defined" := by
  unfold process_bgm
  rw [if_pos h, if_neg (by decide)]
  rfl

/-- Witness for C2 at the failing input of the spec scenario: original
background duration 5 seconds, required duration 20.5 seconds. -/
theorem process_bgm_loop_branch_raises_witness :
    (5 : ℚ) < 41 / 2 ∧
    process_bgm 5 (41 / 2) =
      Except.error "NameError: name concatenate_audioclips is not defined" :=
  ⟨by norm_num, process_bgm_loop_branch_raises 5 (41 / 2) (by norm_num)⟩

/-- Result of the audio mixing step of create_video (src/v3.py:300-316):
either the narration mix alone, or the narration mix at an explicit volume
factor overlaid with the processed background clip, described by the volume
factor applied to it, its duration and its start offset on the mix
timeline. -/
inductive FinalMix where
  | voiceOnly (voice : List (String × ℚ × ℚ))
  | voiceWithBgm (voice : List (String × ℚ × ℚ))
      (voiceVolume bgmVolume bgmDuration bgmStart : ℚ)
deriving DecidableEq, Repr

/-- Shallow embedding of the audio mixing step of create_video
(src/v3.py:300-316): the narration mix is the composite of all narration
clips and its duration is the composite timeline duration; when a
background path is supplied and the file exists, the background is
processed by process_bgm for that duration and overlaid (it is never given
a start, hence offset 0) with the narration kept at volumex(1.0);
otherwise the final audio is the narration mix alone. -/
def create_final_audio (voice : List (String × ℚ × ℚ)) (bgm_path : Option String)
    (bgm_exists : Bool) (bgm_duration : ℚ) : Except String FinalMix :=
  match bgm_path with
  | some _ =>
    if bgm_exists then
      (process_bgm bgm_duration (totalTimelineDuration voice)).map
        fun p => FinalMix.voiceWithBgm voice 1 p.2 p.1 0
    else
      Except.ok (FinalMix.voiceOnly voice)
  | none => Except.ok (FinalMix.voiceOnly voice)

/-- C4 counterexample: with a background path supplied and the file
existing, but the background native duration 5 shorter than the narration
mix duration 20.5, the mixing step raises the NameError coming from the
loop branch of process_bgm instead of producing the narration plus
attenuated background mix. -/
theorem create_final_audio_counterexample :
    create_final_audio [("intro", 0, 41 / 2)] (some "bgm.mp3") true 5 =
      Except.error "NameError: name concatenate_audioclips is not defined" := by
  have htot : totalTimelineDuration [("intro", 0, 41 / 2)] = 41 / 2 := by
    norm_num [totalTimelineDuration, max_def]
  have hlt : (5 : ℚ) < totalTimelineDuration [("intro", 0, 41 / 2)] := by
    rw [htot]; norm_num
  simp only [create_final_audio, if_true]
  unfold process_bgm
  rw [if_pos hlt, if_neg (by decide)]
  rfl

/-- C4 amended: the final audio mix equals the narration mix at volume 1.0
overlaid at offset 0 with the background attenuated to exactly 0.3 of its
input amplitude whenever a background path is supplied, the file exists,
and the background native duration is at least the narration mix duration;
when no background is supplied or the file does not exist the final mix is
the narration mix alone.  (When the background is shorter than the
narration mix, the run aborts with the NameError of the unimported
concatenate_audioclips, see the counterexample.) -/
theorem create_final_audio_amplitudes (voice : List (String × ℚ × ℚ))
    (bgm_path : Option String) (bgm_exists : Bool) (bgm_duration : ℚ)
    (h : totalTimelineDuration voice ≤ bgm_duration) :
    create_final_audio voice bgm_path bgm_exists bgm_duration =
      if bgm_path.isSome ∧ bgm_exists = true then
        Except.ok (FinalMix.voiceWithBgm voice 1 (3 / 10)
          (totalTimelineDuration voice) 0)
      else
        Except.ok (FinalMix.voiceOnly voice) := by
  have hmin : min (totalTimelineDuration voice) bgm_duration =
      totalTimelineDuration voice := min_eq_left h
  cases bgm_path with
  | none => simp [create_final_audio]
  | some p =>
    cases bgm_exists with
    | false => simp [create_final_audio]
    | true =>
      simp [create_final_audio, process_bgm, Except.map, hmin, not_lt.mpr h]

/-- Witness for C4 with a single 3-second narration entry and a 10-second
background that is supplied and exists. -/
theorem create_final_audio_amplitudes_witness :
    totalTimelineDuration [("intro", 0, 3)] ≤ 10 ∧
    create_final_audio [("intro", 0, 3)] (some "bgm.mp3") true 10 =
      (if (some "bgm.mp3").isSome ∧ true = true then
        Except.ok (FinalMix.voiceWithBgm [("intro", 0, 3)] 1 (3 / 10)
          (totalTimelineDuration [("intro", 0, 3)]) 0)
      else
        Except.ok (FinalMix.voiceOnly [("intro", 0, 3)])) :=
  ⟨by norm_num [totalTimelineDuration, max_def],
   create_final_audio_amplitudes [("intro", 0, 3)] (some "bgm.mp3") true 10
     (by norm_num [totalTimelineDuration, max_def])⟩

/-- Embedding of the Python method str.endswith for a single suffix, via
the character lists of the strings. -/
def endswith (s suffix : String) : Bool := suffix.data.isSuffixOf s.data

/-- The filter applied to the directory listing at src/v3.py:266:
f.endswith((".mp4", ".MP4")). -/
def isVideoFile (f : String) : Bool := endswith f ".mp4" || endswith f ".MP4"

/-- The fixed location of the final export,
self.dirs[output] / "final_video.mp4" (src/v3.py:323), expressed relative
to the generator base directory. -/
def output_path : String := "output/final_video.mp4"

/-- Embedding of create_image_video (src/v3.py:191-217): the image at the
given path is resized (anisotropically, aspect ratio not preserved) to the
target canvas and held as a static clip of the given duration at 24 fps,
with no audio.  The path determines only the pixels, not the metadata. -/
def create_image_video (_image_path : String) (duration : ℚ) : MClip :=
  { size := video_size, duration := duration, fps := 24, start := 0, audio := none }

/-- Embedding of process_video_by_duration (src/v3.py:162-189): load the
source video, normalize it with resize_and_pad_video (whose padding
branch raises, see resize_and_pad_video), then cut
subclip(start, start + duration); cutting past the end of the normalized
clip also raises.  Every raised error propagates through the except block
(src/v3.py:187-189). -/
def process_video_by_duration (source : MClip) (start duration : ℚ) :
    Except String MClip :=
  match resize_and_pad_video video_size.1 video_size.2 source with
  | Except.error e => Except.error e
  | Except.ok video =>
    if start + duration ≤ video.duration then
      Except.ok { video with duration := duration }
    else
      Except.error "ValueError: subclip end time beyond clip duration"

/-- Embedding of the image loop of create_video (src/v3.py:284-293): for
each non-intro timeline entry, enumerated from i = 1, with an available
image (i - 1 < len(image_paths)), build the image clip for the entry
duration, anchor it at the entry start time, and record the event; entries
beyond the image list produce no visual track and are silently skipped. -/
def image_clips_loop (image_paths : List String) :
    ℕ → List (String × ℚ × ℚ) → List Event × List MClip
  | _, [] => ([], [])
  | i, (_, start_time, duration) :: rest =>
    let r := image_clips_loop image_paths (i + 1) rest
    match image_paths.get? (i - 1) with
    | some p =>
      (Event.imageProcessed i p :: r.1,
       { create_image_video p duration with start := start_time } :: r.2)
    | none => r

/-- External configuration of one create_video run (src/v3.py:252): the
video folder argument and its directory listing, the image path list, the
optional background path together with its existence and native duration,
the synthesis behavior, and the source video clip sitting in the folder. -/
structure Config where
  video_folder : String
  folder_files : List String
  image_paths : List String
  bgm_path : Option String
  bgm_exists : Bool
  bgm_duration : ℚ
  tts : String → Except String ℚ
  source : MClip

/-- Shallow embedding of VideoGenerator.create_video (src/v3.py:252-351).
Step 1 synthesizes all narration clips (generate_audio_segments,
src/v3.py:259); step 2 filters the folder listing for .mp4 entries and
raises 未找到视频文件 when there is none (src/v3.py:266-268), then
processes the intro video for the duration of the first timeline entry
(src/v3.py:272-281); the image loop builds the remaining visual tracks
(src/v3.py:284-293); the audio step builds the final mix
(create_final_audio, src/v3.py:300-316); the export writes the single
output file at the fixed output_path and returns that path
(src/v3.py:322-344).  The first component lists the externally visible
events in execution order, the second is the returned path or the first
raised error. -/
def create_video (cfg : Config) : List Event × Except String String :=
  let tr := generate_audio_segments_traced cfg.tts 0 segments
  match tr.2 with
  | Except.error err => (tr.1, Except.error err.2)
  | Except.ok audio_segments =>
    match cfg.folder_files.filter isVideoFile with
    | [] => (tr.1, Except.error "未找到视频文件")
    | vf :: _ =>
      let video_path := cfg.video_folder ++ "/" ++ vf
      match audio_segments with
      | [] => (tr.1 ++ [Event.videoFileSelected video_path],
               Except.error "IndexError: list index out of range")
      | first :: tail =>
        match process_video_by_duration cfg.source 0 first.2.2 with
        | Except.error e =>
          (tr.1 ++ [Event.videoFileSelected video_path], Except.error e)
        | Except.ok first_clip =>
          let _first_clip := { first_clip with start := first.2.1 }
          let imgs := image_clips_loop cfg.image_paths 1 tail
          let evs := tr.1 ++ Event.videoFileSelected video_path ::
            Event.introProcessed :: imgs.1
          match create_final_audio (first :: tail) cfg.bgm_path cfg.bgm_exists
              cfg.bgm_duration with
          | Except.error e => (evs, Except.error e)
          | Except.ok _ =>
            (evs ++ [Event.exported output_path], Except.ok output_path)

/-- Recognizer for image-processing events. -/
def isImageEvent : Event → Bool
  | Event.imageProcessed _ _ => true
  | _ => false

/-- Recognizer for export events. -/
def isExportEvent : Event → Bool
  | Event.exported _ => true
  | _ => false

theorem filter_isImage_map_image (l : List (ℕ × String)) :
    (l.map fun kp => Event.imageProcessed kp.1 kp.2).filter isImageEvent =
      l.map fun kp => Event.imageProcessed kp.1 kp.2 := by
  induction l with
  | nil => rfl
  | cons a t ih => simp [isImageEvent, ih]

theorem generate_audio_segments_traced_events (tts : String → Except String ℚ)
    (c : ℚ) (segs : List Segment) :
    ∀ e ∈ (generate_audio_segments_traced tts c segs).1, ∃ n, e = Event.ttsCall n := by
  induction segs generalizing c with
  | nil =>
    intro e he
    simp [generate_audio_segments_traced] at he
  | cons seg rest ih =>
    intro e he
    simp only [generate_audio_segments_traced] at he
    cases htts : tts seg.text with
    | error err =>
      rw [htts] at he
      simp at he
      exact ⟨seg.name, he⟩
    | ok dur =>
      rw [htts] at he
      simp at he
      rcases he with rfl | h
      · exact ⟨seg.name, rfl⟩
      · exact ih (c + dur) e h

theorem image_clips_loop_events_shape (ps : List String)
    (L : List (String × ℚ × ℚ)) (i : ℕ) :
    ∀ e ∈ (image_clips_loop ps i L).1,
      ∃ k p, e = Event.imageProcessed k p ∧ i ≤ k ∧ k - 1 < ps.length := by
  induction L generalizing i with
  | nil =>
    intro e he
    simp [image_clips_loop] at he
  | cons a rest ih =>
    intro e he
    obtain ⟨a1, a2, a3⟩ := a
    simp only [image_clips_loop] at he
    cases hget : ps.get? (i - 1) with
    | some p =>
      rw [hget] at he
      simp at he
      rcases he with rfl | h
      · refine ⟨i, p, rfl, le_rfl, ?_⟩
        rw [List.get?_eq_getElem?] at hget
        exact (List.getElem?_eq_some.mp hget).1
      · obtain ⟨k, q, hk, hik, hkp⟩ := ih (i + 1) e h
        exact ⟨k, q, hk, by omega, hkp⟩
    | none =>
      rw [hget] at he
      obtain ⟨k, q, hk, hik, hkp⟩ := ih (i + 1) e he
      exact ⟨k, q, hk, by omega, hkp⟩

theorem image_clips_loop_events (ps : List String) (i : ℕ) (hi : 1 ≤ i)
    (L : List (String × ℚ × ℚ)) :
    (image_clips_loop ps i L).1 =
      (((ps.drop (i - 1)).take L.length).enumFrom i).map
        fun kp => Event.imageProcessed kp.1 kp.2 := by
  induction L generalizing i with
  | nil => simp [image_clips_loop]
  | cons a rest ih =>
    obtain ⟨a1, a2, a3⟩ := a
    simp only [image_clips_loop]
    cases hget : ps.get? (i - 1) with
    | some p =>
      rw [List.get?_eq_getElem?] at hget
      obtain ⟨hlt, hp⟩ := List.getElem?_eq_some.mp hget
      have hdrop : ps.drop (i - 1) = p :: ps.drop i := by
        have h1 : i - 1 + 1 = i := by omega
        rw [List.drop_eq_getElem_cons hlt, hp, h1]
      rw [hdrop]
      simp only [List.length_cons, List.take_succ_cons, List.enumFrom_cons, List.map_cons]
      rw [ih (i + 1) (by omega)]
      have h2 : i + 1 - 1 = i := by omega
      rw [h2]
    | none =>
      have hge : ps.length ≤ i - 1 := by
        rw [List.get?_eq_getElem?] at hget
        exact le_of_not_lt fun hcon => by
          simp [List.getElem?_eq_getElem hcon] at hget
      have hd1 : ps.drop (i - 1) = [] := List.drop_eq_nil_of_le hge
      have hd2 : ps.drop (i + 1 - 1) = [] := List.drop_eq_nil_of_le (by omega)
      rw [ih (i + 1) (by omega), hd1, hd2]
      simp

theorem create_video_eval (cfg : Config) (d : String → ℚ)
    (htts : ∀ s ∈ segments, cfg.tts s.text = Except.ok (d s.text))
    (vf : String) (rest : List String)
    (hvf : cfg.folder_files.filter isVideoFile = vf :: rest)
    (hsize : scaled_size video_size.1 video_size.2 cfg.source.size.1 cfg.source.size.2
      = (video_size.1, video_size.2))
    (hdur : d "王一博周边定制排行" ≤ cfg.source.duration) :
    create_video cfg =
      ((segments.map fun s => Event.ttsCall s.name)
        ++ Event.videoFileSelected (cfg.video_folder ++ "/" ++ vf)
        :: Event.introProcessed
        :: ((((cfg.image_paths.take 6).enumFrom 1).map fun kp =>
              Event.imageProcessed kp.1 kp.2)
          ++ match create_final_audio (timelineFrom d 0 segments) cfg.bgm_path
                cfg.bgm_exists cfg.bgm_duration with
              | Except.error _ => []
              | Except.ok _ => [Event.exported output_path]),
       match create_final_audio (timelineFrom d 0 segments) cfg.bgm_path
           cfg.bgm_exists cfg.bgm_duration with
       | Except.error e => Except.error e
       | Except.ok _ => Except.ok output_path) := by
  have h1 := generate_audio_segments_traced_ok cfg.tts d 0 segments htts
  have hvid : process_video_by_duration cfg.source 0 (d "王一博周边定制排行") =
      Except.ok { cfg.source with
        size := (video_size.1, video_size.2)
        duration := d "王一博周边定制排行" } := by
    unfold process_video_by_duration resize_and_pad_video
    simp [hsize, hdur]
  have himgs : (image_clips_loop cfg.image_paths 1
        (timelineFrom d (d "王一博周边定制排行") segments.tail)).1 =
      ((cfg.image_paths.take 6).enumFrom 1).map fun kp =>
        Event.imageProcessed kp.1 kp.2 := by
    rw [image_clips_loop_events cfg.image_paths 1 le_rfl, timelineFrom_length]
    norm_num [segments]
  have hfirst : timelineFrom d 0 segments =
      ("intro", 0, d "王一博周边定制排行") ::
        timelineFrom d (0 + d "王一博周边定制排行") (segments.drop 1) := by
    simp [segments, timelineFrom]
  simp only [create_video, h1, hfirst, hvf]
  simp only [hvid]
  cases hfa : create_final_audio
      (("intro", 0, d "王一博周边定制排行") ::
        timelineFrom d (0 + d "王一博周边定制排行") (segments.drop 1))
      cfg.bgm_path cfg.bgm_exists cfg.bgm_duration with
  | error e => simp [himgs]
  | ok fm => simp [himgs]

/-- Concrete configuration whose video folder listing has no usable video
file; narration synthesis always succeeds with 2-second clips, and the
source clip slot describes a valid 810 by 1080 clip. -/
def cfg_no_video : Config :=
  { video_folder := "./input"
    folder_files := ["notes.txt", "cover.jpg"]
    image_paths := ["./images/a.jpg"]
    bgm_path := none
    bgm_exists := false
    bgm_duration := 0
    tts := fun _ => Except.ok 2
    source := { size := (810, 1080), duration := 60, fps := 30, start := 0, audio := some 60 } }

/-- C5 counterexample: with no usable video file in the folder, the run
does raise the fatal 未找到视频文件 error, but only after performing all
seven narration synthesis calls: the recorded trace consists of the seven
synthesis events, refuting that the run aborts before any narration
synthesis is performed. -/
theorem create_video_no_video_counterexample :
    create_video cfg_no_video =
      ([Event.ttsCall "intro", Event.ttsCall "bronze", Event.ttsCall "silver",
        Event.ttsCall "gold", Event.ttsCall "platinum", Event.ttsCall "diamond",
        Event.ttsCall "king"], Except.error "未找到视频文件") := by
  have h1 := generate_audio_segments_traced_ok cfg_no_video.tts (fun _ => 2) 0 segments
    (fun _ _ => rfl)
  have h2 : cfg_no_video.folder_files.filter isVideoFile = [] := rfl
  simp only [create_video, h1, h2]
  rfl

/-- C5 amended: when the folder listing contains no usable video file, the
run fails with the fatal error 未找到视频文件, but only after narration
synthesis has completed for every caption (step 1 runs before the
video-file check of step 2); no video selection, visual processing or
export is performed. -/
theorem create_video_no_video_file (cfg : Config) (d : String → ℚ)
    (htts : ∀ s ∈ segments, cfg.tts s.text = Except.ok (d s.text))
    (hvf : cfg.folder_files.filter isVideoFile = []) :
    create_video cfg =
      (segments.map fun s => Event.ttsCall s.name, Except.error "未找到视频文件") := by
  have h1 := generate_audio_segments_traced_ok cfg.tts d 0 segments htts
  simp [create_video, h1, hvf]

/-- Configuration with an empty video folder listing, for the C5 witness. -/
def cfg_empty_folder : Config :=
  { cfg_no_video with folder_files := [] }

/-- Witness for the amended C5 at a concrete configuration with an empty
folder listing. -/
theorem create_video_no_video_file_witness :
    create_video cfg_empty_folder =
      (segments.map fun s => Event.ttsCall s.name, Except.error "未找到视频文件") :=
  create_video_no_video_file cfg_empty_folder (fun _ => 2) (fun _ _ => rfl) rfl

/-- C6: when the seven narration tracks exceed the supplied image paths
(fewer than six images for the six non-intro segments), the pipeline still
completes and returns the output path (given a valid aspect-matching
source video, successful synthesis and no background), the recorded image
events pair segment k with image k-1 for exactly the supplied images, and
every image event index stays within the image list: the excess narration
entries produce no visual track and cause no crash. -/
theorem create_video_fewer_images_completes (cfg : Config) (d : String → ℚ)
    (htts : ∀ s ∈ segments, cfg.tts s.text = Except.ok (d s.text))
    (vf : String) (rest : List String)
    (hvf : cfg.folder_files.filter isVideoFile = vf :: rest)
    (hsize : scaled_size video_size.1 video_size.2 cfg.source.size.1 cfg.source.size.2
      = (video_size.1, video_size.2))
    (hdur : d "王一博周边定制排行" ≤ cfg.source.duration)
    (hbgm : cfg.bgm_path = none)
    (him : cfg.image_paths.length < 6) :
    (create_video cfg).2 = Except.ok output_path ∧
    (create_video cfg).1.filter isImageEvent =
      (cfg.image_paths.enumFrom 1).map (fun kp => Event.imageProcessed kp.1 kp.2) ∧
    ∀ k p, Event.imageProcessed k p ∈ (create_video cfg).1 →
      1 ≤ k ∧ k ≤ cfg.image_paths.length := by
  have heval := create_video_eval cfg d htts vf rest hvf hsize hdur
  rw [hbgm] at heval
  simp only [create_final_audio] at heval
  have htake : cfg.image_paths.take 6 = cfg.image_paths :=
    List.take_of_length_le (by omega)
  rw [htake] at heval
  refine ⟨by rw [heval], ?_, ?_⟩
  · rw [heval]
    have hA : (segments.map fun s => Event.ttsCall s.name).filter isImageEvent = [] := rfl
    simp [List.filter_append, hA, isImageEvent, filter_isImage_map_image]
  · intro k p hk
    rw [heval] at hk
    rcases List.mem_append.mp hk with hk | hk
    · obtain ⟨s, -, hs⟩ := List.mem_map.mp hk
      exact absurd hs (by simp)
    · rcases List.mem_cons.mp hk with hk | hk
      · exact absurd hk (by simp)
      rcases List.mem_cons.mp hk with hk | hk
      · exact absurd hk (by simp)
      rcases List.mem_append.mp hk with hk | hk
      · obtain ⟨⟨k2, p2⟩, hmem, heq⟩ := List.mem_map.mp hk
        have hkk : k2 = k ∧ p2 = p := by
          have heq2 : Event.imageProcessed k2 p2 = Event.imageProcessed k p := heq
          injection heq2 with ha hb
          exact ⟨ha, hb⟩
        obtain ⟨rfl, rfl⟩ := hkk
        obtain ⟨h1k, h2k, -⟩ := List.mem_enumFrom hmem
        omega
      · exact absurd (List.mem_singleton.mp hk) (by simp)

/-- Configuration with a valid source video and only four images for the
six non-intro segments, used by the C6 and C8 witnesses. -/
def cfg_fewer_images : Config :=
  { video_folder := "./input"
    folder_files := ["demo.mp4"]
    image_paths := ["./images/浴巾毛巾.jpg", "./images/马克杯.jpg",
                    "./images/毛巾.jpg", "./images/带帽卫衣.jpg"]
    bgm_path := none
    bgm_exists := false
    bgm_duration := 0
    tts := fun _ => Except.ok 2
    source := { size := (810, 1080), duration := 60, fps := 30, start := 0, audio := some 60 } }

/-- Witness for C6 at a run with seven narration tracks and four images. -/
theorem create_video_fewer_images_completes_witness :
    (create_video cfg_fewer_images).2 = Except.ok output_path ∧
    (create_video cfg_fewer_images).1.filter isImageEvent =
      (cfg_fewer_images.image_paths.enumFrom 1).map
        (fun kp => Event.imageProcessed kp.1 kp.2) ∧
    ∀ k p, Event.imageProcessed k p ∈ (create_video cfg_fewer_images).1 →
      1 ≤ k ∧ k ≤ cfg_fewer_images.image_paths.length :=
  create_video_fewer_images_completes cfg_fewer_images (fun _ => 2)
    (fun _ _ => rfl) "demo.mp4" [] rfl
    (by norm_num [scaled_size, scale_ratio, max_def, video_size, cfg_fewer_images])
    (by norm_num [cfg_fewer_images]) rfl (by norm_num [cfg_fewer_images])

/-- C10: whenever the pipeline reaches the image loop (valid source video
and successful synthesis), the first visual track comes from the selected
source video, after which exactly the first min(len(image_paths), 6)
images are processed in list order, with image k-1 paired with the k-th
narration segment; any image beyond the six non-intro segments is silently
ignored (the take 6 below). -/
theorem create_video_image_pairing (cfg : Config) (d : String → ℚ)
    (htts : ∀ s ∈ segments, cfg.tts s.text = Except.ok (d s.text))
    (vf : String) (rest : List String)
    (hvf : cfg.folder_files.filter isVideoFile = vf :: rest)
    (hsize : scaled_size video_size.1 video_size.2 cfg.source.size.1 cfg.source.size.2
      = (video_size.1, video_size.2))
    (hdur : d "王一博周边定制排行" ≤ cfg.source.duration) :
    ∃ tailEvents,
      (create_video cfg).1 =
        (segments.map fun s => Event.ttsCall s.name)
        ++ Event.videoFileSelected (cfg.video_folder ++ "/" ++ vf)
        :: Event.introProcessed
        :: (((cfg.image_paths.take 6).enumFrom 1).map fun kp =>
            Event.imageProcessed kp.1 kp.2)
        ++ tailEvents := by
  have heval := create_video_eval cfg d htts vf rest hvf hsize hdur
  refine ⟨(match create_final_audio (timelineFrom d 0 segments) cfg.bgm_path
      cfg.bgm_exists cfg.bgm_duration with
    | Except.error _ => []
    | Except.ok _ => [Event.exported output_path]), ?_⟩
  rw [heval]
  rfl

/-- Configuration with eight supplied images (two more than the six
non-intro segments), for the C10 witness. -/
def cfg_many_images : Config :=
  { cfg_fewer_images with
    image_paths := ["./images/i1.jpg", "./images/i2.jpg", "./images/i3.jpg",
                    "./images/i4.jpg", "./images/i5.jpg", "./images/i6.jpg",
                    "./images/i7.jpg", "./images/i8.jpg"] }

/-- Witness for C10 at a run with eight supplied images: only the first
six appear in the trace, paired in order with segments 1..6. -/
theorem create_video_image_pairing_witness :
    ∃ tailEvents,
      (create_video cfg_many_images).1 =
        (segments.map fun s => Event.ttsCall s.name)
        ++ Event.videoFileSelected (cfg_many_images.video_folder ++ "/" ++ "demo.mp4")
        :: Event.introProcessed
        :: (((cfg_many_images.image_paths.take 6).enumFrom 1).map fun kp =>
            Event.imageProcessed kp.1 kp.2)
        ++ tailEvents :=
  create_video_image_pairing cfg_many_images (fun _ => 2) (fun _ _ => rfl)
    "demo.mp4" [] rfl
    (by norm_num [scaled_size, scale_ratio, max_def, video_size, cfg_many_images, cfg_fewer_images])
    (by norm_num [cfg_many_images, cfg_fewer_images])

/-- C8 amended: on success, create_video returns exactly one exported
file, and it is always written to the fixed path output/final_video.mp4
under the generator base directory; the caller arguments offer no way to
choose the location (the signature carries no output path). -/
theorem create_video_output_path_fixed (cfg : Config) (p : String)
    (h : (create_video cfg).2 = Except.ok p) :
    p = output_path ∧
    (create_video cfg).1.filter isExportEvent = [Event.exported output_path] := by
  have httsev := generate_audio_segments_traced_events cfg.tts 0 segments
  cases h1 : (generate_audio_segments_traced cfg.tts 0 segments).2 with
  | error err => simp [create_video, h1] at h
  | ok audio_segments =>
    cases h2 : cfg.folder_files.filter isVideoFile with
    | nil => simp [create_video, h1, h2] at h
    | cons vf vrest =>
      cases audio_segments with
      | nil => simp [create_video, h1, h2] at h
      | cons first tail =>
        cases h3 : process_video_by_duration cfg.source 0 first.2.2 with
        | error e => simp [create_video, h1, h2, h3] at h
        | ok fc =>
          cases h4 : create_final_audio (first :: tail) cfg.bgm_path
              cfg.bgm_exists cfg.bgm_duration with
          | error e => simp [create_video, h1, h2, h3, h4] at h
          | ok fm =>
            have hres : create_video cfg =
                ((generate_audio_segments_traced cfg.tts 0 segments).1
                  ++ Event.videoFileSelected (cfg.video_folder ++ "/" ++ vf)
                  :: Event.introProcessed
                  :: ((image_clips_loop cfg.image_paths 1 tail).1
                    ++ [Event.exported output_path]),
                 Except.ok output_path) := by
              simp [create_video, h1, h2, h3, h4]
            rw [hres] at h
            have hp : p = output_path := by
              simpa using h.symm
            refine ⟨hp, ?_⟩
            rw [hres]
            have hA : ((generate_audio_segments_traced cfg.tts 0 segments).1).filter
                isExportEvent = [] :=
              List.filter_eq_nil_iff.mpr fun e he => by
                obtain ⟨n, rfl⟩ := httsev e he
                simp [isExportEvent]
            have hI : ((image_clips_loop cfg.image_paths 1 tail).1).filter
                isExportEvent = [] :=
              List.filter_eq_nil_iff.mpr fun e he => by
                obtain ⟨k, q, rfl, -, -⟩ :=
                  image_clips_loop_events_shape cfg.image_paths tail 1 e he
                simp [isExportEvent]
            simp [List.filter_append, hA, hI, isExportEvent]

/-- Witness for C8 at a complete concrete run. -/
theorem create_video_output_path_fixed_witness :
    output_path = output_path ∧
    (create_video cfg_fewer_images).1.filter isExportEvent =
      [Event.exported output_path] := by
  have heval := create_video_eval cfg_fewer_images (fun _ => 2) (fun _ _ => rfl)
    "demo.mp4" [] rfl
    (by norm_num [scaled_size, scale_ratio, max_def, video_size, cfg_fewer_images])
    (by norm_num [cfg_fewer_images])
  have h2 : (create_video cfg_fewer_images).2 = Except.ok output_path := by
    rw [heval]
    rfl
  exact create_video_output_path_fixed cfg_fewer_images output_path h2

/-- Configuration identical in role to cfg_fewer_images but with a
different caller folder and image list, for the C8 counterexample. -/
def cfg_alt_caller : Config :=
  { cfg_fewer_images with
    video_folder := "./other_folder"
    image_paths := ["./images/x.jpg", "./images/y.jpg", "./images/z.jpg"] }

/-- C8 counterexample: two runs with different caller arguments both write
their single output to the same fixed location output/final_video.mp4; the
signature of create_video (video folder, image paths, background path)
gives the caller no way to specify the output path, refuting that the
output location is caller-specified. -/
theorem create_video_output_path_not_caller_chosen :
    (create_video cfg_fewer_images).2 = Except.ok "output/final_video.mp4" ∧
    (create_video cfg_alt_caller).2 = Except.ok "output/final_video.mp4" ∧
    cfg_fewer_images.video_folder ≠ cfg_alt_caller.video_folder := by
  refine ⟨?_, ?_, by decide⟩
  · have heval := create_video_eval cfg_fewer_images (fun _ => 2) (fun _ _ => rfl)
      "demo.mp4" [] rfl
      (by norm_num [scaled_size, scale_ratio, max_def, video_size, cfg_fewer_images])
      (by norm_num [cfg_fewer_images])
    rw [heval]
    rfl
  · have heval := create_video_eval cfg_alt_caller (fun _ => 2) (fun _ _ => rfl)
      "demo.mp4" [] rfl
      (by norm_num [scaled_size, scale_ratio, max_def, video_size, cfg_alt_caller, cfg_fewer_images])
      (by norm_num [cfg_alt_caller, cfg_fewer_images])
    rw [heval]
    rfl

end XhsVideoTool
